import Mathlib

/-!
Shallow embedding of the camhub-client dashboard (src/app.js) for checking
the spec's claims about the live-view session lifecycle manager and the
reconciliation loop.

The embedding models:
- the WHEP session negotiator `startWhep` (app.js lines 58-85), with the
  platform pieces it calls (URL resolution, SDP answer commit) made explicit
  as parameters or simple string functions;
- the `CameraTile` live-view controller effect (lines 93-123) as a small-step
  transition system over interleaved lifecycle events (bind, cleanup,
  negotiation settlement, track arrival);
- the `App` component's reconciliation loop (lines 188-256): polling cycles,
  config fetch, snapshot accumulation and persistence.

Asynchronous JS is modelled by explicit event interleavings: each `await`
point is an event the scheduler may order freely, and the closure-captured
`active` flag and `sessionRef` mutable cell are fields of the explicit state.
Fallible platform calls (fetch, localStorage, SDP parsing) are modelled with
`Except` or oracle parameters.
-/

namespace CamHub

/-! ### URL resolution (platform `new URL(location, base)`)

`startWhep` (line 83) derives the session URL with
`new URL(location, whepUrl).toString()`.  We model the WHATWG URL
constructor for the reference shapes a `Location` header takes: absolute
URL, scheme-relative, path-absolute, and path-relative references.  Dot
segment normalization and query or fragment splitting are not modelled;
none of the claims exercise them. -/

/-- Split a character list at the first occurrence of the scheme
separator `://`; `none` when there is no separator.  (String functions
are written over `String.data` so that concrete instances evaluate by
structural reduction.) -/
def splitSchemeSep : List Char → Option (List Char × List Char)
  | [] => none
  | ':' :: '/' :: '/' :: rest => some ([], rest)
  | c :: rest =>
    match splitSchemeSep rest with
    | some (pre, post) => some (c :: pre, post)
    | none => none

/-- Split an absolute URL into its scheme and the remainder after the
scheme separator; `none` when the string carries no scheme separator. -/
def splitScheme (u : String) : Option (String × String) :=
  match splitSchemeSep u.data with
  | some (sch, rest) => some (⟨sch⟩, ⟨rest⟩)
  | none => none

/-- The directory part of a URL path: everything up to and including the
last slash (the WHATWG merge step for relative references). -/
def dirOf (path : String) : String :=
  if path.data.isEmpty then "/"
  else ⟨((path.data.reverse).dropWhile (fun c => c ≠ '/')).reverse⟩

/-- Models `new URL(loc, base).toString()` for the reference shapes listed above. -/
def resolveURL (loc base : String) : String :=
  match splitScheme loc with
  | some _ => loc
  | none =>
    match splitScheme base with
    | none => loc
    | some (sch, rest) =>
      let host : String := ⟨rest.data.takeWhile (fun c => c ≠ '/')⟩
      let path : String := ⟨rest.data.dropWhile (fun c => c ≠ '/')⟩
      let origin := sch ++ "://" ++ host
      match loc.data with
      | '/' :: '/' :: _ => sch ++ ":" ++ loc
      | '/' :: _ => origin ++ loc
      | [] => base
      | _ => origin ++ dirOf path ++ loc

/-! ### Session negotiator (`startWhep`, app.js lines 58-85) -/

/-- The value resolved by `startWhep`: `{ pc, sessionUrl }` (line 84).
Peer connections are identified by a numeric id; the video sink holds
stream ids (JS object identity is modelled by id equality). -/
structure Session where
  pc : Nat
  sessionUrl : Option String
deriving DecidableEq

/-- Lines 82-83: `res.headers.get("Location")` gives `none` when the header
is absent; the JS truthiness test `location ? ... : null` also maps an
empty header value to `null`. -/
def sessionUrlOf (locationHeader : Option String) (whepUrl : String) : Option String :=
  match locationHeader with
  | some loc => if loc.data.isEmpty then none else some (resolveURL loc whepUrl)
  | none => none

/-- The fields of the `fetch` response that `startWhep` can observe.
`ok` and `status` are carried to record that the source never reads them. -/
structure WhepResponse where
  ok : Bool
  status : Nat
  body : String
  location : Option String
deriving DecidableEq

/-- Outcome of the `fetch(whepUrl, {method: "POST", ...})` round trip:
either the network fails (the promise rejects) or a response arrives. -/
inductive FetchOutcome where
  | networkError
  | response (res : WhepResponse)

/-- Lines 63-68: the `pc.ontrack` handler.  `const [stream] = event.streams`
takes the first stream if any; the sink is written only when the guard
`stream && video.srcObject !== stream` passes. -/
def ontrack (streams : List Nat) (srcObject : Option Nat) : Option Nat :=
  match streams with
  | stream :: _ => if srcObject ≠ some stream then some stream else srcObject
  | [] => srcObject

/-- Lines 70-85 of `startWhep` after the peer connection is created:
commit the offer, POST it, read the body as the answer and commit it,
then derive the session locator.  `sdpValid` is the platform SDP parser
behind `setRemoteDescription` (it rejects exactly the malformed answers);
a network failure rejects at the `fetch` await.  Note that `res.ok` and
`res.status` are never consulted. -/
def startWhep (sdpValid : String → Bool) (whepUrl : String) (pcId : Nat)
    (f : FetchOutcome) : Except String Session :=
  match f with
  | .networkError => .error "fetch failed"
  | .response res =>
    if sdpValid res.body then
      .ok { pc := pcId, sessionUrl := sessionUrlOf res.location whepUrl }
    else
      .error "setRemoteDescription failed"

/-! ### Live view controller (`CameraTile` effect, app.js lines 93-123)

One bind cycle per effect run.  Cycle `n` creates peer connection `n`
synchronously at the top of `startWhep` (line 59).  The closure-captured
`active` flag, the `sessionRef` cell, the set of not-yet-closed peer
connections, and the shared `video.srcObject` sink are explicit state. -/

/-- Per-cycle state: the `active` closure flag, the cycle's peer
connection, whether its negotiation promise has settled (`.then` or
`.catch` ran), and whether the remote answer was committed (after which
the connection can receive tracks). -/
structure CycleState where
  active : Bool
  pc : Nat
  settled : Bool
  answered : Bool
deriving DecidableEq

/-- The controller's mutable state: all cycles ever started (index = cycle
id), the currently mounted cycle, the peer connections not yet closed,
`sessionRef.current`, `video.srcObject`, the `error` and `connecting`
React state, and the log of session-resource DELETE requests issued. -/
structure TileState where
  cycles : List CycleState
  current : Option Nat
  openPcs : List Nat
  sessionRef : Option Session
  srcObject : Option Nat
  errorMsg : String
  connecting : Bool
  deletes : List String
deriving DecidableEq

/-- State at mount: `useRef(null)` twice, `useState(true)`, `useState("")`. -/
def initTile : TileState :=
  { cycles := []
    current := none
    openPcs := []
    sessionRef := none
    srcObject := none
    errorMsg := ""
    connecting := true
    deletes := [] }

/-- Replace cycle `i` by `f` applied to it, when it exists. -/
def updateCycle (cycles : List CycleState) (i : Nat)
    (f : CycleState → CycleState) : List CycleState :=
  match cycles.get? i with
  | some c => cycles.set i (f c)
  | none => cycles

/-- The interleaved lifecycle events of one controller:
`bind` runs the effect body (lines 94-112) up to its first await;
`cleanup` runs the effect cleanup (lines 114-122);
`resolveOk c url` settles cycle `c`'s negotiation successfully
(the answer was committed, then lines 103-107 ran);
`resolveErr c` settles it with a failure (lines 108-112);
`track c streams` fires `ontrack` on cycle `c`'s connection. -/
inductive Event where
  | bind
  | cleanup
  | resolveOk (c : Nat) (url : Option String)
  | resolveErr (c : Nat)
  | track (c : Nat) (streams : List Nat)

/-- The effect cleanup body (lines 114-122): clear the current cycle's
`active` flag, close `sessionRef.current?.pc` when present, and issue a
DELETE against `sessionRef.current?.sessionUrl` when present.  The source
does not reset `sessionRef.current`. -/
def cleanupEffect (s : TileState) : TileState :=
  let cycles1 :=
    match s.current with
    | some c => updateCycle s.cycles c (fun cs => { cs with active := false })
    | none => s.cycles
  let base := { s with cycles := cycles1, current := none }
  match s.sessionRef with
  | some sess =>
    { base with
      openPcs := base.openPcs.filter (fun p => p ≠ sess.pc)
      deletes :=
        match sess.sessionUrl with
        | some u => base.deletes ++ [u]
        | none => base.deletes }
  | none => base

/-- The session-resource DELETE round trip (line 120): `fetch(url,
{method: "DELETE"})` either resolves or rejects. -/
def deleteAttempt (networkOk : Bool) : Except Unit Unit :=
  if networkOk then .ok () else .error ()

/-- Line 120 with its `.catch(() => {})`: a rejected deletion is absorbed. -/
def deleteBestEffort (networkOk : Bool) : Except Unit Unit :=
  match deleteAttempt networkOk with
  | .ok u => .ok u
  | .error _ => .ok ()

/-- The cleanup including the fallible deletion request: the connection
close and flag clear are synchronous; the DELETE, when a locator exists,
is fire-and-forget with its failure caught.  An `Except.error` result
would model the cleanup itself raising. -/
def runCleanup (s : TileState) (networkOk : Bool) : Except Unit TileState :=
  let s1 := cleanupEffect s
  match s.sessionRef with
  | some sess =>
    match sess.sessionUrl with
    | some _ =>
      match deleteBestEffort networkOk with
      | .ok _ => .ok s1
      | .error e => .error e
    | none => .ok s1
  | none => .ok s1

/-- One lifecycle step.  Events not enabled in the current state (a second
bind without a cleanup in between, settling an already settled cycle,
a track on a closed or unanswered connection) leave the state unchanged;
React guarantees cleanup runs before the effect re-runs, which is encoded
by `bind` being enabled only when no cycle is current. -/
def step (s : TileState) (e : Event) : TileState :=
  match e with
  | .bind =>
    match s.current with
    | some _ => s
    | none =>
      let n := s.cycles.length
      { s with
        cycles := s.cycles ++ [{ active := true, pc := n, settled := false, answered := false }]
        current := some n
        openPcs := s.openPcs ++ [n]
        connecting := true
        errorMsg := "" }
  | .cleanup => cleanupEffect s
  | .resolveOk c url =>
    match s.cycles.get? c with
    | some cs =>
      if cs.settled then s
      else
        let cycles1 := updateCycle s.cycles c (fun x => { x with settled := true, answered := true })
        let s1 := { s with cycles := cycles1 }
        if cs.active then
          { s1 with
            sessionRef := some { pc := cs.pc, sessionUrl := url }
            connecting := false }
        else s1
    | none => s
  | .resolveErr c =>
    match s.cycles.get? c with
    | some cs =>
      if cs.settled then s
      else
        let cycles1 := updateCycle s.cycles c (fun x => { x with settled := true })
        let s1 := { s with cycles := cycles1 }
        if cs.active then
          { s1 with errorMsg := "WebRTC failed", connecting := false }
        else s1
    | none => s
  | .track c streams =>
    match s.cycles.get? c with
    | some cs =>
      if cs.answered && s.openPcs.contains cs.pc then
        { s with srcObject := ontrack streams s.srcObject }
      else s
    | none => s

/-- Run a controller through a sequence of lifecycle events. -/
def run (s : TileState) (es : List Event) : TileState :=
  es.foldl step s

/-! ### Reconciliation loop (`App`, app.js lines 188-256) -/

/-- The camera fields the dashboard reads (lines 100, 125-131, 269-271). -/
structure Camera where
  id : Nat
  name : String
  status : String
  streamPath : Option String
deriving DecidableEq

/-- The motion event fields the dashboard reads (lines 305-311). -/
structure MotionEvent where
  id : Nat
  cameraId : Nat
  ts : Nat
  snapshotPath : Option String
deriving DecidableEq

/-- A locally accumulated snapshot record (line 235). -/
structure SnapshotRecord where
  id : Nat
  ts : Nat
  url : String
deriving DecidableEq

/-- The `App` component's state (lines 189-199). -/
structure AppState where
  cameras : List Camera
  snapshots : List SnapshotRecord
  webrtcBase : String
  motionEvents : List MotionEvent
deriving DecidableEq

/-- Function `buildApiUrl` (lines 6-9), with the module-level `apiBase` passed in. -/
def buildApiUrl (apiBase path : String) : String :=
  if apiBase.isEmpty then path else apiBase ++ path

/-- Function `refresh` (lines 203-206): one camera-list request; on resolution set
the collection wholesale; a rejection anywhere before `setCameras`
(network failure or body parse) leaves everything untouched. -/
def refresh (s : AppState) (result : Except Unit (List Camera)) : AppState :=
  match result with
  | .ok data => { s with cameras := data }
  | .error _ => s

/-- Function `refreshMotion` (lines 208-213): as `refresh`, with an extra
`Array.isArray` guard — a successful response whose body is not an array
(`Except.ok none`) is also discarded. -/
def refreshMotion (s : AppState)
    (result : Except Unit (Option (List MotionEvent))) : AppState :=
  match result with
  | .ok (some data) => { s with motionEvents := data }
  | .ok none => s
  | .error _ => s

/-- The shape of `GET /api/config` (line 216). -/
structure Config where
  webrtcBase : Option String
deriving DecidableEq

/-- Line 218: `cfg.webrtcBase || fallback` (an absent or empty value falls
back to the page-derived address). -/
def resolveBase (cfg : Config) (fallback : String) : String :=
  match cfg.webrtcBase with
  | some b => if b.isEmpty then fallback else b
  | none => fallback

/-- Lines 216-219: the one-time config fetch.  The `.then` has no
`.catch`, so a rejected fetch runs no state update at all — `webrtcBase`
keeps its previous value and nothing is surfaced. -/
def configStep (s : AppState) (result : Except Unit Config)
    (fallback : String) : AppState :=
  match result with
  | .ok cfg => { s with webrtcBase := resolveBase cfg fallback }
  | .error _ => s

/-- The shape of `POST /api/snapshots/{id}` (line 232). -/
structure SnapshotResponse where
  ok : Bool
  path : Option String
deriving DecidableEq

/-- Line 233: absolute paths pass through, others go through `buildApiUrl`. -/
def snapshotUrl (apiBase p : String) : String :=
  if p.startsWith "http" then p else buildApiUrl apiBase p

/-- Function `handleSnapshot` (lines 230-239) after its request resolved: when
`data.ok && data.path` is truthy (an empty `path` string is falsy),
prepend a new record to the history; otherwise do nothing. -/
def handleSnapshot (apiBase : String) (resp : SnapshotResponse)
    (id ts : Nat) (s : AppState) : AppState :=
  match resp.path with
  | some p =>
    if resp.ok && !p.isEmpty then
      { s with snapshots := { id := id, ts := ts, url := snapshotUrl apiBase p } :: s.snapshots }
    else s
  | none => s

/-- Call `localStorage.setItem` (line 252): may throw (quota, disabled storage). -/
def setItemResult (storageOk : Bool) : Except Unit Unit :=
  if storageOk then .ok () else .error ()

/-- Lines 250-256: the persistence effect wraps `setItem` in
`try ... catch` with an empty handler — storage failures are absorbed. -/
def persistSnapshots (storageOk : Bool) : Except Unit Unit :=
  match setItemResult storageOk with
  | .ok u => .ok u
  | .error _ => .ok ()

/-- Lines 190-197: the lazy `useState` initializer reads stored history;
a missing key (`Except.ok none`) or a throwing read or parse
(`Except.error`) both yield the empty history. -/
def initialSnapshots
    (stored : Except Unit (Option (List SnapshotRecord))) : List SnapshotRecord :=
  match stored with
  | .ok (some l) => l
  | .ok none => []
  | .error _ => []

/-- Mount-time state (lines 189-199): empty collections, `webrtcBase` is
the empty string until the config fetch resolves. -/
def initialAppState (stored : Except Unit (Option (List SnapshotRecord))) : AppState :=
  { cameras := []
    snapshots := initialSnapshots stored
    webrtcBase := ""
    motionEvents := [] }

/-- The guard at the top of the `CameraTile` effect (line 95):
`if (!video || !webrtcBase) return;` — the bind cycle starts only when
the video element exists and the gateway base is a nonempty string. -/
def bindGuard (videoPresent : Bool) (webrtcBase : String) : Bool :=
  videoPresent && !webrtcBase.isEmpty

/-- Events of the reconciliation loop after mount: the two interval polls
(each carrying its request outcome) and snapshot actions. -/
inductive AppEvent where
  | cameraPoll (result : Except Unit (List Camera))
  | motionPoll (result : Except Unit (Option (List MotionEvent)))
  | snapshot (resp : SnapshotResponse) (id ts : Nat)

/-- One reconciliation-loop step. -/
def appStep (apiBase : String) (s : AppState) (e : AppEvent) : AppState :=
  match e with
  | .cameraPoll result => refresh s result
  | .motionPoll result => refreshMotion s result
  | .snapshot resp id ts => handleSnapshot apiBase resp id ts s

/-- Run the reconciliation loop over a sequence of events.  The fixed
`setInterval` timers (lines 222-223) keep firing regardless of earlier
outcomes, so a failure is followed by further poll events. -/
def appRun (apiBase : String) (s : AppState) (es : List AppEvent) : AppState :=
  es.foldl (appStep apiBase) s

/-! ## Helper lemmas -/

/-- Neither polling cycle nor a snapshot action ever writes `webrtcBase`:
`setWebrtcBase` is called only inside the config fetch's `.then`. -/
theorem appStep_preserves_base (apiBase : String) (s : AppState) (e : AppEvent) :
    (appStep apiBase s e).webrtcBase = s.webrtcBase := by
  cases e with
  | cameraPoll result => cases result <;> rfl
  | motionPoll result =>
    rcases result with _ | (_ | _) <;> rfl
  | snapshot resp id ts =>
    unfold appStep handleSnapshot
    rcases resp with ⟨ok, _ | p⟩
    · rfl
    · dsimp only
      split <;> rfl

/-- After mount, `webrtcBase` is whatever the config fetch left there,
whatever polls and snapshot actions run afterwards. -/
theorem appRun_preserves_base (apiBase : String) (es : List AppEvent) (s : AppState) :
    (appRun apiBase s es).webrtcBase = s.webrtcBase := by
  induction es generalizing s with
  | nil => rfl
  | cons e es ih =>
    show (appRun apiBase (appStep apiBase s e) es).webrtcBase = _
    rw [ih, appStep_preserves_base]

/-! ## Claims -/

/-- Claim C1.  The claim states that at most one LiveSession (open
RTCPeerConnection) exists for one controller at any instant, including
across failed negotiations and rapid rebinds.  The code violates it: on a
rebind while the first negotiation is in flight, the cleanup closes only
`sessionRef.current?.pc` (still unset), and when the superseded
negotiation later resolves, the `if (!active) return;` path (line 104)
discards the session without closing its connection.  In the trace below,
cycle 0 is superseded before settling; after both negotiations settle,
peer connections 0 and 1 are both open, and remain so. -/
theorem c1_two_open_connections :
    (run initTile [Event.bind, Event.cleanup, Event.bind,
        Event.resolveOk 0 none, Event.resolveOk 1 none]).openPcs = [0, 1]
    ∧ (run initTile [Event.bind, Event.cleanup, Event.bind,
        Event.resolveOk 0 none, Event.resolveOk 1 none]).sessionRef
      = some { pc := 1, sessionUrl := none } := by
  exact ⟨rfl, rfl⟩

/-- Claim C2.  The claim states that once a bind cycle is unbound before
its negotiation resolves, no mutation of `video.srcObject` occurs after
the unbind.  The code violates it: the `ontrack` handler (lines 63-68)
never consults the `active` flag, and the superseded cycle's connection
is never closed, so a track arriving after the unbind still writes the
sink.  In the trace below the cycle is unbound while unsettled (the state
after `[bind, cleanup]` shows the sink untouched and the cycle inactive
and unsettled); the negotiation then resolves and a track arrives, and
the sink is mutated to stream 7 after the unbind. -/
theorem c2_sink_mutation_after_unbind :
    (run initTile [Event.bind, Event.cleanup]).srcObject = none
    ∧ (run initTile [Event.bind, Event.cleanup]).cycles
      = [{ active := false, pc := 0, settled := false, answered := false }]
    ∧ (run initTile [Event.bind, Event.cleanup,
        Event.resolveOk 0 none, Event.track 0 [7]]).srcObject = some 7 := by
  exact ⟨rfl, rfl, rfl⟩

/-- Claim C3.  Each polling cycle is atomic: a failed request leaves the
whole state (in particular its collection) exactly as it was, a
successful one replaces the corresponding collection wholesale and
touches nothing else, and because the interval keeps firing, a failure
followed by a success on the next tick ends with the fresh collection. -/
theorem c3_poll_atomicity :
    ∀ (apiBase : String) (s : AppState) (cams : List Camera) (evs : List MotionEvent),
      refresh s (.error ()) = s
      ∧ refresh s (.ok cams) = { s with cameras := cams }
      ∧ refreshMotion s (.error ()) = s
      ∧ refreshMotion s (.ok (some evs)) = { s with motionEvents := evs }
      ∧ appRun apiBase s [.cameraPoll (.error ()), .cameraPoll (.ok cams)]
          = { s with cameras := cams }
      ∧ appRun apiBase s [.motionPoll (.error ()), .motionPoll (.ok (some evs))]
          = { s with motionEvents := evs } := by
  intro apiBase s cams evs
  exact ⟨rfl, rfl, rfl, rfl, rfl, rfl⟩

/-- Claim C4.  Teardown always closes the retained peer connection
synchronously (the retained connection is not among the open ones
afterwards), issues the session-resource DELETE exactly when a locator
exists, and never raises: `runCleanup` returns `Except.ok` of the same
state whether or not the deletion request succeeds, and when nothing is
retained no deletion is issued. -/
theorem c4_teardown_total :
    ∀ (s : TileState) (networkOk : Bool),
      runCleanup s networkOk = .ok (cleanupEffect s)
      ∧ (match s.sessionRef with
         | some sess =>
             sess.pc ∉ (cleanupEffect s).openPcs
             ∧ (cleanupEffect s).deletes = s.deletes ++ sess.sessionUrl.toList
         | none => (cleanupEffect s).deletes = s.deletes) := by
  intro s networkOk
  constructor
  · unfold runCleanup
    rcases h : s.sessionRef with _ | ⟨pc, _ | u⟩ <;>
      cases networkOk <;> simp [deleteBestEffort, deleteAttempt]
  · rcases s with ⟨cyc, cur, op, _ | ⟨pc, _ | u⟩, src, err, con, del⟩ <;>
      simp [cleanupEffect, List.mem_filter, Option.toList]

/-- Claim C5.  The session-resource locator is the response's `Location`
header resolved against the endpoint URL — header `/sessions/abc123`
against endpoint `https://gw/cam1/whep` yields
`https://gw/sessions/abc123` — and an absent header yields no locator. -/
theorem c5_session_locator :
    sessionUrlOf (some "/sessions/abc123") "https://gw/cam1/whep"
      = some "https://gw/sessions/abc123"
    ∧ ∀ whepUrl : String, sessionUrlOf none whepUrl = none := by
  exact ⟨rfl, fun _ => rfl⟩

/-- Claim C6, counterexample.  The claim states that on every teardown
path the retained LiveSession is destroyed and unset, so a later teardown
observes no stale session.  The cleanup (lines 114-122) never resets
`sessionRef.current`: after a teardown the controller still references
the closed session, and a subsequent teardown (here after a failed
rebind, which stores no new session) observes the stale session and
issues its DELETE a second time. -/
theorem c6_counterexample :
    (run initTile [Event.bind, Event.resolveOk 0 (some "https://gw/sessions/s1"),
        Event.cleanup]).sessionRef
      = some { pc := 0, sessionUrl := some "https://gw/sessions/s1" }
    ∧ (run initTile [Event.bind, Event.resolveOk 0 (some "https://gw/sessions/s1"),
        Event.cleanup, Event.bind, Event.resolveErr 1, Event.cleanup]).deletes
      = ["https://gw/sessions/s1", "https://gw/sessions/s1"] := by
  exact ⟨rfl, rfl⟩

/-- Claim C6, amended.  On every teardown path the retained LiveSession
is destroyed (its peer connection is closed synchronously), but it is not
unset: the controller still references the same session afterwards, and a
subsequent teardown without an intervening successful negotiation
re-observes the stale session. -/
theorem c6_amended_destroyed_not_unset :
    ∀ (s : TileState) (sess : Session), s.sessionRef = some sess →
      sess.pc ∉ (cleanupEffect s).openPcs
      ∧ (cleanupEffect s).sessionRef = some sess := by
  intro s sess h
  rcases s with ⟨cyc, cur, op, sref, src, err, con, del⟩
  cases h
  simp [cleanupEffect, List.mem_filter]

/-- Witness for the amended C6 at a concrete state. -/
theorem c6_amended_witness :
    (0 : Nat) ∉ (cleanupEffect { initTile with
        sessionRef := some { pc := 0, sessionUrl := none } }).openPcs
    ∧ (cleanupEffect { initTile with
        sessionRef := some { pc := 0, sessionUrl := none } }).sessionRef
      = some { pc := 0, sessionUrl := none } :=
  c6_amended_destroyed_not_unset
    { initTile with sessionRef := some { pc := 0, sessionUrl := none } }
    { pc := 0, sessionUrl := none } rfl

/-- Claim C7, counterexample.  The claim states that any non-success HTTP
response surfaces as a negotiation-failed error.  The code never reads
`res.ok` or `res.status` (lines 73-85): a response with status 500 whose
body happens to parse as an answer is committed and negotiation succeeds. -/
theorem c7_counterexample :
    startWhep (fun sdp => sdp == "v=0") "https://gw/cam1/whep" 0
        (.response { ok := false, status := 500, body := "v=0", location := none })
      = .ok { pc := 0, sessionUrl := none } := by
  exact rfl

/-- Claim C7, amended.  Any network failure or malformed answer surfaces
as a single negotiation-failed error with no partial-success result, and
the controller then enters the error state retaining no new session; the
HTTP status is never consulted, so a non-success response fails only when
its body is rejected as an answer. -/
theorem c7_amended_negotiation_errors :
    ∀ (sdpValid : String → Bool) (whepUrl : String) (pcId : Nat),
      startWhep sdpValid whepUrl pcId .networkError = .error "fetch failed"
      ∧ (∀ res : WhepResponse, sdpValid res.body = false →
          startWhep sdpValid whepUrl pcId (.response res)
            = .error "setRemoteDescription failed")
      ∧ (∀ res : WhepResponse, sdpValid res.body = true →
          startWhep sdpValid whepUrl pcId (.response res)
            = .ok { pc := pcId, sessionUrl := sessionUrlOf res.location whepUrl })
      ∧ (∀ (s : TileState) (c : Nat) (cs : CycleState),
          s.cycles[c]? = some cs → cs.settled = false → cs.active = true →
            (step s (.resolveErr c)).errorMsg = "WebRTC failed"
            ∧ (step s (.resolveErr c)).sessionRef = s.sessionRef
            ∧ (step s (.resolveErr c)).connecting = false) := by
  intro sdpValid whepUrl pcId
  refine ⟨rfl, ?_, ?_, ?_⟩
  · intro res h
    simp [startWhep, h]
  · intro res h
    simp [startWhep, h]
  · intro s c cs hc hs ha
    simp [step, hc, hs, ha]

/-- Witness for the amended C7 at concrete inputs. -/
theorem c7_amended_witness :
    startWhep (fun sdp => sdp == "v=0") "https://gw/cam1/whep" 0
        (.response { ok := true, status := 201, body := "bogus", location := none })
      = .error "setRemoteDescription failed"
    ∧ startWhep (fun sdp => sdp == "v=0") "https://gw/cam1/whep" 0
        (.response { ok := true, status := 201, body := "v=0", location := some "/sessions/abc123" })
      = .ok { pc := 0, sessionUrl := sessionUrlOf (some "/sessions/abc123") "https://gw/cam1/whep" }
    ∧ (step { initTile with
          cycles := [{ active := true, pc := 0, settled := false, answered := false }]
          current := some 0
          openPcs := [0] } (.resolveErr 0)).errorMsg = "WebRTC failed" := by
  refine ⟨?_, ?_, ?_⟩
  · exact (c7_amended_negotiation_errors (fun sdp => sdp == "v=0") "https://gw/cam1/whep" 0).2.1
      { ok := true, status := 201, body := "bogus", location := none } (by decide)
  · exact (c7_amended_negotiation_errors (fun sdp => sdp == "v=0") "https://gw/cam1/whep" 0).2.2.1
      { ok := true, status := 201, body := "v=0", location := some "/sessions/abc123" } (by decide)
  · exact ((c7_amended_negotiation_errors (fun sdp => sdp == "v=0") "https://gw/cam1/whep" 0).2.2.2
      { initTile with
        cycles := [{ active := true, pc := 0, settled := false, answered := false }]
        current := some 0
        openPcs := [0] } 0
      { active := true, pc := 0, settled := false, answered := false } rfl rfl rfl).1

/-- Claim C8.  A successful snapshot action (response `ok` with a
nonempty `path`) prepends exactly one new record to the history, leaving
every existing entry in place and order and the camera collection
untouched; failed poll cycles leave the history unchanged; persistence
failures are absorbed. -/
theorem c8_snapshot_prepend :
    ∀ (apiBase : String) (resp : SnapshotResponse) (id ts : Nat) (s : AppState) (p : String),
      resp.path = some p → resp.ok = true → p.isEmpty = false →
        (handleSnapshot apiBase resp id ts s).snapshots
            = { id := id, ts := ts, url := snapshotUrl apiBase p } :: s.snapshots
        ∧ (handleSnapshot apiBase resp id ts s).cameras = s.cameras
        ∧ (refresh s (.error ())).snapshots = s.snapshots
        ∧ (refreshMotion s (.error ())).snapshots = s.snapshots
        ∧ ∀ storageOk : Bool, persistSnapshots storageOk = .ok () := by
  intro apiBase resp id ts s p hpath hok hp
  refine ⟨?_, ?_, rfl, rfl, ?_⟩
  · simp [handleSnapshot, hpath, hok, hp]
  · simp [handleSnapshot, hpath, hok, hp]
  · intro storageOk
    cases storageOk <;> rfl

/-- Witness for C8 at a concrete response and state. -/
theorem c8_snapshot_prepend_witness :
    (handleSnapshot "" { ok := true, path := some "/snaps/1.jpg" } 1 2
        (initialAppState (.ok none))).snapshots
      = [{ id := 1, ts := 2, url := snapshotUrl "" "/snaps/1.jpg" }]
    ∧ persistSnapshots false = .ok () := by
  refine ⟨?_, ?_⟩
  · exact (c8_snapshot_prepend "" { ok := true, path := some "/snaps/1.jpg" } 1 2
      (initialAppState (.ok none)) "/snaps/1.jpg" rfl rfl (by decide)).1
  · exact (c8_snapshot_prepend "" { ok := true, path := some "/snaps/1.jpg" } 1 2
      (initialAppState (.ok none)) "/snaps/1.jpg" rfl rfl (by decide)).2.2.2.2 false

/-- Claim C9.  The track handler attaches the first received stream to
the sink and is idempotent: when the sink already holds that stream,
handling the event again leaves it unchanged, and in general the handler
always leaves the sink holding the event's first stream. -/
theorem c9_ontrack_idempotent :
    ∀ (stream : Nat) (rest : List Nat) (sink : Option Nat),
      ontrack (stream :: rest) (some stream) = some stream
      ∧ ontrack (stream :: rest) sink = some stream
      ∧ ontrack (stream :: rest) (ontrack (stream :: rest) sink)
          = ontrack (stream :: rest) sink := by
  intro stream rest sink
  have h : ontrack (stream :: rest) sink = some stream := by
    by_cases h : sink = some stream <;> simp [ontrack, h]
  refine ⟨by simp [ontrack], h, ?_⟩
  rw [h]
  simp [ontrack]

/-- Claim C10.  If the one-time config fetch rejects, no state update
runs (the `.then` has no `.catch`): the whole mount-time state is
unchanged, nothing is surfaced, there is no retry, and since no poll or
snapshot event ever writes `webrtcBase`, it stays empty for the
dashboard's lifetime — so every tile's bind effect fails its guard and
remains idle, never invoking the negotiator. -/
theorem c10_config_failure_idle :
    ∀ (apiBase fallback : String) (stored : Except Unit (Option (List SnapshotRecord)))
      (trace : List AppEvent) (videoPresent : Bool),
      configStep (initialAppState stored) (.error ()) fallback = initialAppState stored
      ∧ (appRun apiBase (configStep (initialAppState stored) (.error ()) fallback)
            trace).webrtcBase = ""
      ∧ bindGuard videoPresent "" = false := by
  intro apiBase fallback stored trace videoPresent
  refine ⟨rfl, ?_, ?_⟩
  · rw [appRun_preserves_base]
    rfl
  · cases videoPresent <;> rfl

end CamHub
